import Mathlib

/-!
Shallow embedding of the WinBoat Electron main process (src/main/main.ts):
window-geometry persistence through an electron-store, tray-menu construction
from the winboat.config.json recent-apps list, single-instance handling,
the main-window close handler, the init-tray IPC handler, and the
Content-Security-Policy header injection.
-/

/-- Window constant from main.ts line 11. -/
def WINDOW_MIN_WIDTH : Int := 1280

/-- Window constant from main.ts line 12. -/
def WINDOW_MIN_HEIGHT : Int := 800

/-- The dimensions entry of the settings store (SchemaType.dimensions). -/
structure Dimensions where
  width : Int
  height : Int
deriving DecidableEq

/-- The position entry of the settings store (SchemaType.position). -/
structure Position where
  x : Int
  y : Int
deriving DecidableEq

/-- The electron-store windowStore: each top-level entry may be unset, in
which case the schema defaults of main.ts lines 26-57 apply on get. -/
structure WindowStore where
  dimensions : Option Dimensions
  position : Option Position
deriving DecidableEq

/-- windowStore.get ("dimensions.width"): stored value or the schema default
WINDOW_MIN_WIDTH (main.ts lines 31-34, 168). -/
def WindowStore.getDimensionsWidth (s : WindowStore) : Int :=
  match s.dimensions with
  | some d => d.width
  | none => WINDOW_MIN_WIDTH

/-- windowStore.get ("dimensions.height"): stored value or the schema default
WINDOW_MIN_HEIGHT (main.ts lines 35-38, 169). -/
def WindowStore.getDimensionsHeight (s : WindowStore) : Int :=
  match s.dimensions with
  | some d => d.height
  | none => WINDOW_MIN_HEIGHT

/-- windowStore.get ("position.x"): stored value or the schema default 0
(main.ts lines 45-48, 170). -/
def WindowStore.getPositionX (s : WindowStore) : Int :=
  match s.position with
  | some p => p.x
  | none => 0

/-- windowStore.get ("position.y"): stored value or the schema default 0
(main.ts lines 49-52, 171). -/
def WindowStore.getPositionY (s : WindowStore) : Int :=
  match s.position with
  | some p => p.y
  | none => 0

/-- A window rectangle as returned by BrowserWindow.getBounds(). -/
structure Bounds where
  x : Int
  y : Int
  width : Int
  height : Int
deriving DecidableEq

/-- The observable state of the main BrowserWindow. -/
structure BrowserWindow where
  minWidth : Int
  minHeight : Int
  bounds : Bounds
  visible : Bool
  destroyed : Bool
deriving DecidableEq

/-- A recentApps entry of winboat.config.json: an object with a name field
(only the name is used by the tray menu, main.ts line 79). -/
structure RecentApp where
  name : String
deriving DecidableEq

/-- The config-file observations at CONFIG_PATH on which the recentApps
variable of updateTrayMenu ends up holding an array (main.ts lines 68-76):
the file may be missing (fs.existsSync is false), reading or JSON.parse may
throw (the catch leaves the initial []), or it parses to an object whose
recentApps field is absent or falsy (config.recentApps || [] yields the
empty list) or a genuine array. The one remaining content — a parsed
object whose recentApps is a truthy non-array value — is
ConfigContent.truthyNonArray below; there the slice call of main.ts line
78 throws. -/
inductive ConfigFile
  | absent
  | unparseable
  | parsed (recentApps : Option (List RecentApp))
deriving DecidableEq

/-- The try block of updateTrayMenu (main.ts lines 69-73): when the file
exists its JSON is parsed and recentApps taken from it (config.recentApps
with a fallback to [] when the field is absent); a read or parse failure
throws. -/
def readRecentApps : ConfigFile → Except String (List RecentApp)
  | ConfigFile.absent => Except.ok []
  | ConfigFile.unparseable => Except.error "Failed to read config for tray"
  | ConfigFile.parsed none => Except.ok []
  | ConfigFile.parsed (some l) => Except.ok l

/-- The try/catch of main.ts lines 69-76 around readRecentApps: a thrown
error is caught and logged (console.error), leaving recentApps at its
initial value, the empty list. -/
def recentAppsOf (f : ConfigFile) : List RecentApp :=
  match readRecentApps f with
  | Except.ok l => l
  | Except.error _ => []

/-- The click actions wired into the tray menu items: each sends a named
signal on the window's webContents (and for app and navigation entries also
shows the window), or sets isQuitting and quits. -/
inductive MenuAction
  | launchAppByName (name : String)
  | navigate (route : String)
  | containerAction (action : String)
  | quit

/-- A tray menu item as produced by Menu.buildFromTemplate: a disabled or
enabled plain label, a separator, a clickable item, or a submenu. -/
inductive MenuItem
  | label (text : String) (enabled : Bool)
  | separator
  | clickable (text : String) (action : MenuAction)
  | submenu (text : String) (items : List MenuItem)

/-- The recentApps.slice(0, 10).map of main.ts lines 78-84: the first at
most ten recent apps, each a clickable item labeled with the entry's name
whose click sends launch-app-by-name with that name. -/
def recentAppsMenuOf (apps : List RecentApp) : List MenuItem :=
  (apps.take 10).map
    (fun a => MenuItem.clickable a.name (MenuAction.launchAppByName a.name))

/-- The placeholder submenu entry of main.ts line 106. -/
def noRecentAppsItem : MenuItem := MenuItem.label "No recent apps" false

/-- The submenu chosen on main.ts line 106: the recent-apps items when
there are any, else the single disabled placeholder. -/
def recentAppsSubmenuOf (apps : List RecentApp) : List MenuItem :=
  let m := recentAppsMenuOf apps
  if m.length > 0 then m else [noRecentAppsItem]

/-- The full context-menu template of main.ts lines 86-119, built from the
already-computed recentAppsMenu items of lines 78-84. -/
def contextMenuFromItems (recentAppsMenu : List MenuItem) : List MenuItem :=
  [ MenuItem.label "WinBoat" false,
    MenuItem.separator,
    MenuItem.clickable "Open Apps" (MenuAction.navigate "/apps"),
    MenuItem.clickable "Open Configuration" (MenuAction.navigate "/config"),
    MenuItem.separator,
    MenuItem.submenu "Recent Apps"
      (if recentAppsMenu.length > 0 then recentAppsMenu else [noRecentAppsItem]),
    MenuItem.separator,
    MenuItem.clickable "Run Container" (MenuAction.containerAction "start"),
    MenuItem.clickable "Pause Container" (MenuAction.containerAction "pause"),
    MenuItem.separator,
    MenuItem.clickable "Quit" MenuAction.quit ]

/-- The full context menu rendered for a given recent-apps list. -/
def contextMenuOf (apps : List RecentApp) : List MenuItem :=
  contextMenuFromItems (recentAppsMenuOf apps)

/-- The observable state of the Tray object: its context menu and tooltip,
each unset until the corresponding setter runs. -/
structure Tray where
  contextMenu : Option (List MenuItem)
  tooltip : Option String

/-- The complete space of config-file contents: the ConfigFile cases, on
which the recentApps variable ends up an array, plus a parsed JSON object
whose recentApps field is a truthy non-array value (a number, a nonempty
string, an object), which config.recentApps || [] keeps as-is. -/
inductive ConfigContent
  | arrayLike (f : ConfigFile)
  | truthyNonArray
deriving DecidableEq

/-- The value held by the recentApps variable after the try/catch of
main.ts lines 68-76: an array in the ConfigFile cases (the catch leaves
[]), the truthy non-array value itself otherwise. -/
inductive RecentAppsVar
  | array (apps : List RecentApp)
  | truthyNonArray

/-- The try/catch of main.ts lines 68-76 over the complete config space. -/
def recentAppsVarOf : ConfigContent → RecentAppsVar
  | ConfigContent.arrayLike f => RecentAppsVar.array (recentAppsOf f)
  | ConfigContent.truthyNonArray => RecentAppsVar.truthyNonArray

/-- recentApps.slice(0, 10).map(...) of main.ts lines 78-84, which stands
outside the try/catch: on an array it yields the clickable items; on a
truthy non-array value it throws an uncaught TypeError (numbers and
objects have no slice method; a string's slice result has no map). -/
def recentAppsMenuOfVar : RecentAppsVar → Except String (List MenuItem)
  | RecentAppsVar.array apps => Except.ok (recentAppsMenuOf apps)
  | RecentAppsVar.truthyNonArray =>
      Except.error "TypeError: recentApps.slice is not a function"

/-- updateTrayMenu (main.ts lines 65-122) as a function of the tray
variable and the config-file content: it returns early when tray is null;
otherwise it reads recentApps (read/parse errors caught inside the try of
recentAppsVarOf), runs the slice/map outside the try/catch, builds the
full context menu and sets it on the tray. The Except result records
whether an error escapes the function: only the slice/map TypeError of a
truthy non-array recentApps does. -/
def updateTrayMenu (tray : Option Tray) (c : ConfigContent) :
    Except String (Option Tray) :=
  match tray with
  | none => Except.ok none
  | some t =>
    match recentAppsMenuOfVar (recentAppsVarOf c) with
    | Except.error e => Except.error e
    | Except.ok m =>
        Except.ok (some { t with contextMenu := some (contextMenuFromItems m) })

/-- Side effects on the user and the process: dialog boxes shown (their
messages, in order) and whether the process was exited. -/
structure Effects where
  dialogs : List String
  exited : Bool
deriving DecidableEq

/-- No dialog shown, process running. -/
def noEffects : Effects := { dialogs := [], exited := false }

/-- join(base, "icons", "winboat_logo.png") of main.ts lines 126-128. -/
def pngIconPath (base : String) : String := base ++ "/icons/winboat_logo.png"

/-- join(base, "icons", "winboat_logo.svg") of main.ts lines 132-134. -/
def svgIconPath (base : String) : String := base ++ "/icons/winboat_logo.svg"

/-- The base directory the icon is looked up under (main.ts lines 126-128):
process.resourcesPath when packaged, else app.getAppPath(). -/
def trayIconBase (isPackaged : Bool) (resourcesPath appPath : String) : String :=
  if isPackaged then resourcesPath else appPath

/-- Icon path resolution of createTray (main.ts lines 126-135): start from
the PNG path; when that file does not exist fall back to the SVG path,
whose own existence is not checked. -/
def resolveTrayIconPath (base : String) (fsExists : String → Bool) : String :=
  let iconPath := pngIconPath base
  if fsExists iconPath then iconPath else svgIconPath base

/-- What createTray produces: the resolved icon path, the tray it
constructs, and the user/process side effects of the call. -/
structure CreateTrayResult where
  iconPath : String
  tray : Tray
  effects : Effects

/-- createTray (main.ts lines 124-151): resolves the icon path, constructs
the Tray, runs updateTrayMenu (setting the context menu) and sets the
tooltip. The source contains no dialog call and no exit call on any path,
so the effects are always empty. -/
def createTray (base : String) (fsExists : String → Bool) (f : ConfigFile) :
    CreateTrayResult :=
  { iconPath := resolveTrayIconPath base fsExists,
    tray := { contextMenu := some (contextMenuOf (recentAppsOf f)),
              tooltip := some "WinBoat" },
    effects := noEffects }

/-- The message of the dialog shown when the single-instance lock cannot be
acquired (main.ts line 160). -/
def singleInstanceDialogMessage : String :=
  "An instance of WinBoat is already running.\n\tMultiple Instances are not allowed."

/-- What createWindow produces: the window it constructs, if any, and the
user/process side effects of the call. -/
structure CreateWindowResult where
  window : Option BrowserWindow
  effects : Effects

/-- createWindow (main.ts lines 153-209): when the single-instance lock is
not acquired, a blocking error dialog is shown and the process exits, so no
window is constructed; otherwise the BrowserWindow is created with the
minimum-size constants and the stored (or default) geometry. -/
def createWindow (lockAcquired : Bool) (store : WindowStore) :
    CreateWindowResult :=
  if !lockAcquired then
    { window := none,
      effects := { dialogs := [singleInstanceDialogMessage], exited := true } }
  else
    { window := some
        { minWidth := WINDOW_MIN_WIDTH,
          minHeight := WINDOW_MIN_HEIGHT,
          bounds := { x := store.getPositionX, y := store.getPositionY,
                      width := store.getDimensionsWidth,
                      height := store.getDimensionsHeight },
          visible := true, destroyed := false },
      effects := noEffects }

/-- The module-level mutable state the close and quit handlers touch. -/
structure AppState where
  mainWindow : Option BrowserWindow
  isQuitting : Bool
  store : WindowStore

/-- The close handler of main.ts lines 181-199, run when a close event
fires on the main window. When isQuitting is false the event is prevented
and the window hidden, the store untouched; otherwise the window's bounds
are written to the store entries and the close proceeds. -/
def closeEvent (s : AppState) : AppState :=
  match s.mainWindow with
  | none => s
  | some w =>
    if !s.isQuitting then
      { s with mainWindow := some { w with visible := false } }
    else
      { s with
        store :=
          { dimensions := some { width := w.bounds.width, height := w.bounds.height },
            position := some { x := w.bounds.x, y := w.bounds.y } },
        mainWindow := some { w with destroyed := true } }

/-- The click handler of the tray's Quit item (main.ts lines 112-118): it
sets isQuitting to true and quits the app. -/
def quitClick (s : AppState) : AppState := { s with isQuitting := true }

/-- The state the init-tray IPC handler reads and writes: the tray variable
and, for the invariant, how many times createTray has run. -/
structure TrayInitState where
  tray : Option Tray
  createTrayRuns : Nat

/-- The init-tray IPC handler (main.ts lines 257-261): createTray runs only
when the tray variable is still null. -/
def initTrayHandler (base : String) (fsExists : String → Bool) (f : ConfigFile)
    (e : TrayInitState) : TrayInitState :=
  match e.tray with
  | some _ => e
  | none =>
    { tray := some (createTray base fsExists f).tray,
      createTrayRuns := e.createTrayRuns + 1 }

/-- n consecutive init-tray IPC messages, processed in order. -/
def processInitTray (base : String) (fsExists : String → Bool) (f : ConfigFile) :
    Nat → TrayInitState → TrayInitState
  | 0, e => e
  | Nat.succ n, e =>
    processInitTray base fsExists f n (initTrayHandler base fsExists f e)

/-- The state before any init-tray message: tray is null, createTray has
never run. -/
def initialTrayInit : TrayInitState := { tray := none, createTrayRuns := 0 }

/-- A response-header map: header name to list of values. -/
abbrev Headers := String → Option (List String)

/-- The fixed five-directive Content-Security-Policy value of main.ts
lines 219-225. -/
def cspDirectives : List String :=
  [ "script-src 'self' 'unsafe-eval' 'wasm-unsafe-eval' 'unsafe-inline'",
    "worker-src 'self' blob:",
    "media-src 'self' blob:",
    "font-src 'self' 'unsafe-inline' https://fonts.gstatic.com;",
    "style-src 'self' 'unsafe-inline' https://fonts.googleapis.com" ]

/-- The onHeadersReceived callback of main.ts lines 214-228: the response
headers passed back are the spread of the original details.responseHeaders
with the Content-Security-Policy key set to the fixed directive list. -/
def injectCSP (responseHeaders : Headers) : Headers :=
  fun k =>
    if k = "Content-Security-Policy" then some cspDirectives
    else responseHeaders k

/-! Theorems for the claims. -/

/-- C4: when the single-instance lock cannot be acquired, createWindow shows
the error dialog, exits the process, and constructs no window. -/
theorem C4_second_instance_dialog_and_exit (store : WindowStore) :
    (createWindow false store).effects.dialogs = [singleInstanceDialogMessage] ∧
    (createWindow false store).effects.exited = true ∧
    (createWindow false store).window = none := by
  refine ⟨rfl, rfl, rfl⟩

/-- C6: on an empty settings store the schema defaults apply, so the window
is created with width 1280, height 800 at position (0, 0); those stored
defaults equal the window minimum width and height constants. -/
theorem C6_default_geometry :
    WINDOW_MIN_WIDTH = 1280 ∧ WINDOW_MIN_HEIGHT = 800 ∧
    (WindowStore.mk none none).getDimensionsWidth = WINDOW_MIN_WIDTH ∧
    (WindowStore.mk none none).getDimensionsHeight = WINDOW_MIN_HEIGHT ∧
    (WindowStore.mk none none).getPositionX = 0 ∧
    (WindowStore.mk none none).getPositionY = 0 ∧
    (createWindow true (WindowStore.mk none none)).window = some
      { minWidth := 1280, minHeight := 800,
        bounds := { x := 0, y := 0, width := 1280, height := 800 },
        visible := true, destroyed := false } := by
  refine ⟨rfl, rfl, rfl, rfl, rfl, rfl, rfl⟩

/-- C7: the header-injection callback returns the original response headers
with the Content-Security-Policy key set to the fixed five-directive value;
every other header is unchanged. -/
theorem C7_csp_injection (responseHeaders : Headers) :
    cspDirectives.length = 5 ∧
    injectCSP responseHeaders "Content-Security-Policy" = some cspDirectives ∧
    ∀ k : String, k ≠ "Content-Security-Policy" →
      injectCSP responseHeaders k = responseHeaders k := by
  refine ⟨rfl, rfl, fun k hk => ?_⟩
  simp [injectCSP, hk]

/-- Witness for C7 at a concrete header map and a concrete other header. -/
theorem C7_csp_injection_witness :
    injectCSP (fun _ => some ["nosniff"]) "Content-Security-Policy" = some cspDirectives ∧
    injectCSP (fun _ => some ["nosniff"]) "X-Content-Type-Options" = some ["nosniff"] :=
  ⟨(C7_csp_injection (fun _ => some ["nosniff"])).2.1,
   (C7_csp_injection (fun _ => some ["nosniff"])).2.2 "X-Content-Type-Options" (by decide)⟩

/-- C5 counterexample: a parsed config whose recentApps is a truthy
non-array value (such as the JSON object with recentApps set to 42) passes
the try/catch untouched, and with a tray present the slice call outside
the try/catch throws, so updateTrayMenu does propagate an error and no
menu is set. -/
theorem C5_counterexample :
    updateTrayMenu (some { contextMenu := none, tooltip := none })
      ConfigContent.truthyNonArray =
      Except.error "TypeError: recentApps.slice is not a function" := by
  exact rfl

/-- C5 amended: for every config-file content on which the recentApps
variable ends up an array — a missing file, unreadable or unparseable
JSON, an absent or falsy recentApps field, or an array recentApps —
updateTrayMenu does not propagate an error: the read/parse failure is
caught and logged (readRecentApps errors on an unparseable file,
recentAppsOf yields the empty list), and with a tray present the complete
context menu is built and set on it. A parsed config whose recentApps is a
truthy non-array value instead makes the slice call outside the try/catch
throw a TypeError that propagates out of updateTrayMenu. -/
theorem C5_updateTrayMenu_no_error_on_arrays (f : ConfigFile) (t : Tray) :
    (∀ t0 : Option Tray, ∃ r,
      updateTrayMenu t0 (ConfigContent.arrayLike f) = Except.ok r) ∧
    readRecentApps ConfigFile.unparseable =
      Except.error "Failed to read config for tray" ∧
    recentAppsOf ConfigFile.unparseable = [] ∧
    updateTrayMenu (some t) (ConfigContent.arrayLike f) =
      Except.ok (some { t with contextMenu := some (contextMenuOf (recentAppsOf f)) }) := by
  refine ⟨fun t0 => ?_, rfl, rfl, rfl⟩
  cases t0 with
  | none => exact ⟨none, rfl⟩
  | some t1 =>
    exact ⟨some { t1 with contextMenu := some (contextMenuOf (recentAppsOf f)) }, rfl⟩

/-- A concrete main window whose bounds differ from what the store holds. -/
def sampleWindow : BrowserWindow :=
  { minWidth := WINDOW_MIN_WIDTH, minHeight := WINDOW_MIN_HEIGHT,
    bounds := { x := 5, y := 6, width := 1300, height := 900 },
    visible := true, destroyed := false }

/-- A concrete state in which the user has not chosen Quit: isQuitting is
false and the store still holds the defaults. -/
def sampleHiddenCloseState : AppState :=
  { mainWindow := some sampleWindow,
    isQuitting := false,
    store := { dimensions := some { width := 1280, height := 800 },
               position := some { x := 0, y := 0 } } }

/-- C1 counterexample: a close event with isQuitting false leaves the store
unchanged, so the stored dimensions and position do not equal the window's
bounds (1300 by 900 at (5, 6)) at the time of the close. -/
theorem C1_counterexample :
    (closeEvent sampleHiddenCloseState).store.dimensions ≠
      some { width := 1300, height := 900 } ∧
    (closeEvent sampleHiddenCloseState).store.position ≠
      some { x := 5, y := 6 } := by
  decide

/-- C1 amended: for every close event on the main window that occurs while
isQuitting is true, after the close handler runs the stored dimensions and
position equal the window's bounds at the time of the close; and at startup
createWindow reads the window geometry from the settings store. -/
theorem C1_geometry_read_at_startup_written_at_quitting_close
    (st : WindowStore) (s : AppState) (w : BrowserWindow)
    (hw : s.mainWindow = some w) (hq : s.isQuitting = true) :
    (createWindow true st).window.map BrowserWindow.bounds =
      some { x := st.getPositionX, y := st.getPositionY,
             width := st.getDimensionsWidth, height := st.getDimensionsHeight } ∧
    (closeEvent s).store.dimensions =
      some { width := w.bounds.width, height := w.bounds.height } ∧
    (closeEvent s).store.position = some { x := w.bounds.x, y := w.bounds.y } := by
  refine ⟨rfl, ?_, ?_⟩ <;> simp [closeEvent, hw, hq]

/-- A concrete state right after Quit was chosen from the tray. -/
def sampleQuittingCloseState : AppState :=
  { sampleHiddenCloseState with isQuitting := true }

/-- Witness for the amended C1 at the concrete quitting state. -/
theorem C1_geometry_witness :
    (closeEvent sampleQuittingCloseState).store.dimensions =
      some { width := 1300, height := 900 } ∧
    (closeEvent sampleQuittingCloseState).store.position =
      some { x := 5, y := 6 } :=
  (C1_geometry_read_at_startup_written_at_quitting_close
    (WindowStore.mk none none) sampleQuittingCloseState sampleWindow rfl rfl).2

/-- C8: a close event while isQuitting is false is prevented: the window is
hidden, not destroyed, and the store entries are untouched; the store is
changed by a close only when isQuitting is already true, and the tray's
Quit click is what sets isQuitting to true. -/
theorem C8_close_hides_without_write (s : AppState) (w : BrowserWindow)
    (hw : s.mainWindow = some w) (hq : s.isQuitting = false) :
    closeEvent s = { s with mainWindow := some { w with visible := false } } ∧
    (closeEvent s).store = s.store ∧
    (∀ s2 : AppState, (closeEvent s2).store ≠ s2.store → s2.isQuitting = true) ∧
    (quitClick s).isQuitting = true := by
  refine ⟨?_, ?_, fun s2 hs2 => ?_, rfl⟩
  · simp [closeEvent, hw, hq]
  · simp [closeEvent, hw, hq]
  · by_contra hqf
    apply hs2
    cases hm : s2.mainWindow with
    | none => simp [closeEvent, hm]
    | some w2 => simp [closeEvent, hm, Bool.not_eq_true _ ▸ hqf]

/-- Witness for C8 at the concrete non-quitting state. -/
theorem C8_close_hides_without_write_witness :
    (closeEvent sampleHiddenCloseState).store = sampleHiddenCloseState.store ∧
    (quitClick sampleHiddenCloseState).isQuitting = true :=
  ⟨(C8_close_hides_without_write sampleHiddenCloseState sampleWindow rfl rfl).2.1,
   (C8_close_hides_without_write sampleHiddenCloseState sampleWindow rfl rfl).2.2.2⟩

/-- C2 counterexample: a config file whose recentApps list is empty. The
claim would make the Recent Apps submenu the first min(10, 0) = 0 entries,
but the code renders the single disabled placeholder instead. -/
theorem C2_counterexample :
    (recentAppsSubmenuOf (recentAppsOf (ConfigFile.parsed (some [])))).length ≠
      min 10 (recentAppsOf (ConfigFile.parsed (some []))).length := by
  decide

/-- The label text of a tray menu item. -/
def MenuItem.labelText : MenuItem → String
  | MenuItem.label t _ => t
  | MenuItem.separator => ""
  | MenuItem.clickable t _ => t
  | MenuItem.submenu t _ => t

/-- C2 amended: for every config file whose recentApps list is nonempty,
the Recent Apps submenu of the context menu is exactly the first
min(10, length) entries of recentApps, in order, each labeled with that
entry's name field. -/
theorem C2_recent_apps_submenu (apps : List RecentApp) (h : apps ≠ []) :
    recentAppsOf (ConfigFile.parsed (some apps)) = apps ∧
    recentAppsSubmenuOf apps = recentAppsMenuOf apps ∧
    recentAppsMenuOf apps =
      (apps.take 10).map
        (fun a => MenuItem.clickable a.name (MenuAction.launchAppByName a.name)) ∧
    (recentAppsMenuOf apps).length = min 10 apps.length ∧
    (recentAppsMenuOf apps).map MenuItem.labelText =
      (apps.take 10).map RecentApp.name ∧
    (contextMenuOf apps).get? 5 =
      some (MenuItem.submenu "Recent Apps" (recentAppsSubmenuOf apps)) := by
  refine ⟨rfl, ?_, rfl, ?_, ?_, rfl⟩
  · have hlen : 0 < (recentAppsMenuOf apps).length := by
      simp [recentAppsMenuOf, List.length_take]
      exact List.length_pos.mpr h
    simp [recentAppsSubmenuOf, hlen]
  · simp [recentAppsMenuOf, List.length_take]
  · simp only [recentAppsMenuOf, List.map_map]
    rfl

/-- Witness for the amended C2 at a concrete one-element list. -/
theorem C2_recent_apps_submenu_witness :
    recentAppsSubmenuOf [RecentApp.mk "Notepad"] =
      recentAppsMenuOf [RecentApp.mk "Notepad"] ∧
    (recentAppsMenuOf [RecentApp.mk "Notepad"]).length =
      min 10 [RecentApp.mk "Notepad"].length :=
  ⟨(C2_recent_apps_submenu [RecentApp.mk "Notepad"] (by simp)).2.1,
   (C2_recent_apps_submenu [RecentApp.mk "Notepad"] (by simp)).2.2.2.1⟩

/-- C10: whenever recentApps comes out empty, which covers a missing file,
an unreadable file, an object without the field and an empty list, the
Recent Apps submenu is exactly one disabled entry labeled No recent apps. -/
theorem C10_empty_recent_apps_placeholder (f : ConfigFile)
    (h : recentAppsOf f = []) :
    recentAppsSubmenuOf (recentAppsOf f) = [MenuItem.label "No recent apps" false] ∧
    recentAppsOf ConfigFile.absent = [] ∧
    recentAppsOf ConfigFile.unparseable = [] ∧
    recentAppsOf (ConfigFile.parsed none) = [] ∧
    recentAppsOf (ConfigFile.parsed (some [])) = [] := by
  refine ⟨?_, rfl, rfl, rfl, rfl⟩
  rw [h]
  rfl

/-- Witness for C10 at the missing config file. -/
theorem C10_empty_recent_apps_placeholder_witness :
    recentAppsSubmenuOf (recentAppsOf ConfigFile.absent) =
      [MenuItem.label "No recent apps" false] :=
  (C10_empty_recent_apps_placeholder ConfigFile.absent rfl).1

/-- A filesystem on which no icon file exists at all. -/
def noIconFilesystem : String → Bool := fun _ => false

/-- C3 counterexample: with no tray icon file present, createTray shows no
dialog and does not exit; it falls back to the SVG path and creates the
tray anyway. -/
theorem C3_counterexample :
    noIconFilesystem (pngIconPath "/app") = false ∧
    noIconFilesystem (svgIconPath "/app") = false ∧
    (createTray "/app" noIconFilesystem ConfigFile.absent).effects.dialogs = [] ∧
    (createTray "/app" noIconFilesystem ConfigFile.absent).effects.exited = false ∧
    (createTray "/app" noIconFilesystem ConfigFile.absent).tray.contextMenu =
      some (contextMenuOf []) := by
  refine ⟨rfl, rfl, rfl, rfl, rfl⟩

/-- C3 amended: when the PNG tray icon file is absent, createTray falls
back to the SVG icon path (whose existence is not checked) and proceeds to
create the tray with its context menu and tooltip; no dialog is shown and
the process does not exit. -/
theorem C3_missing_icon_falls_back (base : String) (fsExists : String → Bool)
    (f : ConfigFile) (h : fsExists (pngIconPath base) = false) :
    (createTray base fsExists f).iconPath = svgIconPath base ∧
    (createTray base fsExists f).effects = noEffects ∧
    (createTray base fsExists f).tray.contextMenu =
      some (contextMenuOf (recentAppsOf f)) ∧
    (createTray base fsExists f).tray.tooltip = some "WinBoat" := by
  refine ⟨?_, rfl, rfl, rfl⟩
  simp [createTray, resolveTrayIconPath, h]

/-- Witness for the amended C3 on the empty filesystem. -/
theorem C3_missing_icon_falls_back_witness :
    (createTray "/app" noIconFilesystem ConfigFile.absent).iconPath =
      svgIconPath "/app" ∧
    (createTray "/app" noIconFilesystem ConfigFile.absent).effects = noEffects :=
  ⟨(C3_missing_icon_falls_back "/app" noIconFilesystem ConfigFile.absent rfl).1,
   (C3_missing_icon_falls_back "/app" noIconFilesystem ConfigFile.absent rfl).2.1⟩

/-- Once the tray variable is set, the init-tray handler does nothing. -/
theorem initTrayHandler_fixed (base : String) (fsExists : String → Bool)
    (f : ConfigFile) (e : TrayInitState) (h : e.tray.isSome = true) :
    initTrayHandler base fsExists f e = e := by
  cases he : e.tray with
  | none => rw [he] at h; simp at h
  | some t => simp [initTrayHandler, he]

/-- Once the tray variable is set, any run of init-tray messages does
nothing. -/
theorem processInitTray_fixed (base : String) (fsExists : String → Bool)
    (f : ConfigFile) (n : Nat) (e : TrayInitState) (h : e.tray.isSome = true) :
    processInitTray base fsExists f n e = e := by
  induction n with
  | zero => rfl
  | succ n ih =>
    show processInitTray base fsExists f n (initTrayHandler base fsExists f e) = e
    rw [initTrayHandler_fixed base fsExists f e h]
    exact ih

/-- C9: for every sequence of init-tray IPC messages from the initial state
(tray null, createTray never run), createTray runs at most once — so at
most one Tray is ever created — and once the tray variable is set every
subsequent init-tray message is a no-op. -/
theorem C9_at_most_one_tray (base : String) (fsExists : String → Bool)
    (f : ConfigFile) (n : Nat) :
    (processInitTray base fsExists f n initialTrayInit).createTrayRuns ≤ 1 ∧
    (∀ e : TrayInitState, e.tray.isSome = true →
      initTrayHandler base fsExists f e = e) := by
  refine ⟨?_, fun e he => initTrayHandler_fixed base fsExists f e he⟩
  cases n with
  | zero => exact Nat.zero_le 1
  | succ n =>
    show (processInitTray base fsExists f n
      (initTrayHandler base fsExists f initialTrayInit)).createTrayRuns ≤ 1
    rw [processInitTray_fixed base fsExists f n
      (initTrayHandler base fsExists f initialTrayInit) rfl]
    exact Nat.le.refl

/-- A concrete state in which the tray already exists. -/
def sampleTrayInit : TrayInitState :=
  { tray := some (createTray "/app" noIconFilesystem ConfigFile.absent).tray,
    createTrayRuns := 1 }

/-- Witness for C9: three init-tray messages from the initial state leave
at most one createTray run, and the handler is a no-op once a tray exists. -/
theorem C9_at_most_one_tray_witness :
    (processInitTray "/app" noIconFilesystem ConfigFile.absent 3
      initialTrayInit).createTrayRuns ≤ 1 ∧
    initTrayHandler "/app" noIconFilesystem ConfigFile.absent sampleTrayInit =
      sampleTrayInit :=
  ⟨(C9_at_most_one_tray "/app" noIconFilesystem ConfigFile.absent 3).1,
   (C9_at_most_one_tray "/app" noIconFilesystem ConfigFile.absent 3).2
     sampleTrayInit rfl⟩
